import Mathlib

/-!
Formal model of the shared initialization/orchestration layer of the
halt_and_catch_fire diagnostic suite (`src/common.h`, `src/common.cc`).

Vulkan handles and host pointers are modelled abstractly (as `Nat` addresses),
`VkResult` as `Int` (with `VK_SUCCESS = 0`), machine-integer flag words as
`Nat` with explicit bitwise operations, and the host-visible buffer memory as
a list of 32-bit cells.  Each definition is a direct translation of the
corresponding function in `src/common.cc`.
-/

namespace HCF

/-! ## Basic Vulkan constants (from vulkan_core.h, as used by common.cc) -/

def VK_SUCCESS : Int := 0

def VK_QUEUE_GRAPHICS_BIT : Nat := 1

def VK_QUEUE_COMPUTE_BIT : Nat := 2

def VK_QUEUE_TRANSFER_BIT : Nat := 4

def VK_DESCRIPTOR_TYPE_STORAGE_BUFFER : Nat := 7

def VK_SHADER_STAGE_ALL : Nat := 0x7FFFFFFF

def VK_SHADER_STAGE_COMPUTE_BIT : Nat := 0x20

/-- `enum class QueueType` from common.h. -/
inductive QueueType
  | Undefined
  | Graphics
  | Compute
  | Transfer
deriving DecidableEq

/-- One entry of the `VkQueueFamilyProperties` array, reduced to the
`queueFlags` word which is all `SelectQueue` inspects. -/
structure VkQueueFamilyProperties where
  queueFlags : Nat
deriving DecidableEq

/-- The predicate of the `std::find_if` lambda inside `SelectQueue`
(common.cc:172-186), translated branch by branch. -/
def selectQueuePred (queue_type : QueueType) (q : VkQueueFamilyProperties) : Bool :=
  match queue_type with
  | QueueType.Compute =>
      decide (q.queueFlags &&& VK_QUEUE_COMPUTE_BIT ≠ 0) &&
      !(decide (q.queueFlags &&& VK_QUEUE_GRAPHICS_BIT ≠ 0))
  | QueueType.Transfer =>
      decide (q.queueFlags &&& VK_QUEUE_TRANSFER_BIT ≠ 0) &&
      !(decide (q.queueFlags &&& VK_QUEUE_GRAPHICS_BIT ≠ 0)) &&
      !(decide (q.queueFlags &&& VK_QUEUE_COMPUTE_BIT ≠ 0))
  | _ =>
      decide (VK_QUEUE_GRAPHICS_BIT = q.queueFlags &&& VK_QUEUE_GRAPHICS_BIT)

/-- Index of the first element satisfying `p`; equals the list length when no
element does.  This is the `std::distance(begin, std::find_if(begin, end, p))`
idiom used by `SelectQueue`. -/
def findFirstIdx (p : α → Bool) : List α → Nat
  | [] => 0
  | a :: as => if p a then 0 else findFirstIdx p as + 1

/-- `SelectQueue` (common.cc:162-191): scans the queue family descriptors and
returns the index of the first family matched by the class predicate, or the
family count when none matches. -/
def SelectQueue (queue_families : List VkQueueFamilyProperties)
    (queue_type : QueueType) : Nat :=
  findFirstIdx (selectQueuePred queue_type) queue_families

/-- The queue-class rule as worded by the spec (§4.1): Compute = compute
capability but not graphics; Transfer = transfer but neither graphics nor
compute; Graphics/default = graphics. Stated directly on the flags word, for
comparison with the code's `selectQueuePred`. -/
def specQueueRule (queue_type : QueueType) (flags : Nat) : Prop :=
  match queue_type with
  | QueueType.Compute =>
      flags &&& VK_QUEUE_COMPUTE_BIT ≠ 0 ∧ flags &&& VK_QUEUE_GRAPHICS_BIT = 0
  | QueueType.Transfer =>
      flags &&& VK_QUEUE_TRANSFER_BIT ≠ 0 ∧ flags &&& VK_QUEUE_GRAPHICS_BIT = 0 ∧
      flags &&& VK_QUEUE_COMPUTE_BIT = 0
  | _ => flags &&& VK_QUEUE_GRAPHICS_BIT ≠ 0

instance (t : QueueType) (flags : Nat) : Decidable (specQueueRule t flags) := by
  unfold specQueueRule
  cases t <;> infer_instance

/-! ## FindMemoryType (common.cc:795-808) -/

/-- One entry of `VkPhysicalDeviceMemoryProperties::memoryTypes`, reduced to
its `propertyFlags` word. -/
structure VkMemoryType where
  propertyFlags : Nat
deriving DecidableEq

/-- `uint32_t(-1)`, the "not found" sentinel returned by `FindMemoryType`. -/
def kMemoryTypeNotFound : Nat := 4294967295

/-- The loop of `FindMemoryType`, scanning from index `i`. -/
def findMemoryTypeLoop (memoryTypeBits memoryProperties : Nat) :
    Nat → List VkMemoryType → Nat
  | _, [] => kMemoryTypeNotFound
  | i, m :: rest =>
      if memoryTypeBits.testBit i ∧
          m.propertyFlags &&& memoryProperties = memoryProperties then i
      else findMemoryTypeLoop memoryTypeBits memoryProperties (i + 1) rest

/-- `FindMemoryType` (common.cc:795-808): linear scan of the device memory
types; returns the first index whose bit is set in `memoryTypeBits` and whose
property flags are a superset of `memoryProperties`, else `uint32_t(-1)`. -/
def FindMemoryType (memoryTypes : List VkMemoryType)
    (memoryTypeBits memoryProperties : Nat) : Nat :=
  findMemoryTypeLoop memoryTypeBits memoryProperties 0 memoryTypes

/-! ## Watchdog (common.cc:60-99, 425-433) -/

/-- Result of `std::condition_variable::wait_for`: either the deadline
expired, or the wait returned before it (notification or spurious wakeup). -/
inductive CvStatus
  | timedout
  | noTimeout
deriving DecidableEq

/-- Observable outcome of one run of `WatchdogTimer` (common.cc:66-83):
the final value of the process-wide `test_timedout` flag, and whether the
thread called `exit` (with which status) or returned from its body. -/
structure WatchdogRun where
  test_timedout : Bool
  exitCalled : Option Nat
deriving DecidableEq

/-- `WatchdogTimer` (common.cc:66-83): waits once on the condition variable;
on timeout it sets `test_timedout` and calls `exit(0)`; otherwise it returns
without touching the flag.  `flag0` is the value of `test_timedout` when the
thread starts (`std::atomic<bool>` zero-initializes to `false`). -/
def WatchdogTimer (flag0 : Bool) (status : CvStatus) : WatchdogRun :=
  match status with
  | CvStatus.timedout => { test_timedout := true, exitCalled := some 0 }
  | CvStatus.noTimeout => { test_timedout := flag0, exitCalled := none }

/-- The process-wide watchdog globals of common.cc:60-64, together with
instrumentation counting how many threads were ever spawned and how many
`atexit` registrations were made.  `watchdog_thread` records, when the thread
exists, the `test_termination_timer_ms` deadline it was started with. -/
structure WatchdogGlobals where
  watchdog_thread : Option Nat
  atexitRegistrations : Nat
  threadsSpawned : Nat
deriving DecidableEq

/-- The watchdog globals at process start: null thread pointer, nothing
registered, nothing spawned. -/
def initialWatchdogGlobals : WatchdogGlobals :=
  { watchdog_thread := none, atexitRegistrations := 0, threadsSpawned := 0 }

/-- The slice of `VulkanContext` (common.h:99-116) that the watchdog and
device bookkeeping read. -/
structure VulkanContext where
  test_termination_timer_ms : Nat
deriving DecidableEq

/-- `SetupWatchdogTimer` (common.cc:425-433): if no watchdog thread exists
yet, spawn one with the context's deadline and register the atexit handler;
otherwise do nothing. -/
def SetupWatchdogTimer (context : VulkanContext) (g : WatchdogGlobals) :
    WatchdogGlobals :=
  match g.watchdog_thread with
  | none =>
      { watchdog_thread := some context.test_termination_timer_ms,
        atexitRegistrations := g.atexitRegistrations + 1,
        threadsSpawned := g.threadsSpawned + 1 }
  | some _ => g

/-! ## CreateSubmitInfo (common.cc:609-632) -/

/-- A `std::vector` argument as seen through the submission builder: the
address of its backing storage (`data()`) and its contents. -/
structure HostVector (α : Type) where
  addr : Nat
  elems : List α
deriving DecidableEq

/-- `VkSubmitInfo` as filled in by `CreateSubmitInfo`; pointers are abstract
addresses, `none` standing for the null pointer of the zero initializer. -/
structure VkSubmitInfo where
  commandBufferCount : Nat
  pCommandBuffers : Option Nat
  waitSemaphoreCount : Nat
  pWaitSemaphores : Option Nat
  pWaitDstStageMask : Option Nat
  signalSemaphoreCount : Nat
  pSignalSemaphores : Option Nat
  pNext : Option Nat
deriving DecidableEq

/-- `CreateSubmitInfo` (common.cc:609-632).  Returns `none` when the call does
not complete normally: dereferencing a null `wait_dst_stage_masks` while
`wait_semaphores` is non-null, or failing the
`assert(wait_semaphores->size() == wait_dst_stage_masks->size())` at
common.cc:622. -/
def CreateSubmitInfo (command_buffer : Nat)
    (wait_semaphores : Option (HostVector Nat))
    (wait_dst_stage_masks : Option (HostVector Nat))
    (signal_semaphores : Option (HostVector Nat))
    (pnext : Option Nat) : Option VkSubmitInfo :=
  let base : VkSubmitInfo :=
    { commandBufferCount := 1
      pCommandBuffers := some command_buffer
      waitSemaphoreCount := 0
      pWaitSemaphores := none
      pWaitDstStageMask := none
      signalSemaphoreCount := 0
      pSignalSemaphores := none
      pNext := none }
  let withWait : Option VkSubmitInfo :=
    match wait_semaphores with
    | none => some base
    | some ws =>
        match wait_dst_stage_masks with
        | none => none
        | some masks =>
            if ws.elems.length = masks.elems.length then
              some { base with
                       waitSemaphoreCount := ws.elems.length
                       pWaitSemaphores := some ws.addr
                       pWaitDstStageMask := some masks.addr }
            else none
  match withWait with
  | none => none
  | some info =>
      let withSignal : VkSubmitInfo :=
        match signal_semaphores with
        | none => info
        | some ss =>
            { info with
                signalSemaphoreCount := ss.elems.length
                pSignalSemaphores := some ss.addr }
      some { withSignal with pNext := pnext }

/-! ## AllocateInputOutputBuffers (common.cc:450-534) -/

/-- `enum class BufferInitialization` from common.h. -/
inductive BufferInitialization
  | None
  | Default
  | MinusOne
  | _64K
  | Transfer
deriving DecidableEq

/-- One 32-bit word of the mapped host-visible allocation.  The writes that
`AllocateInputOutputBuffers` performs store either a float (all float values
written — `2 + 2*i`, `-1.0f`, `0.0f` — are integers, exactly representable)
or a `uint32_t`.  `undef` stands for the indeterminate contents of freshly
allocated device memory. -/
inductive Cell
  | undef
  | f32 (v : Int)
  | u32 (v : Nat)
deriving DecidableEq

/-- Sequential stores through an incrementing pointer: write the cells of
`vals` at indices `start, start+1, ...` of `mem` (a store past the end of the
allocation is modelled by `List.set`'s no-op, though the callers below always
stay in range). -/
def writeSeq (mem : List Cell) (start : Nat) : List Cell → List Cell
  | [] => mem
  | v :: vs => writeSeq (mem.set start v) (start + 1) vs

/-- The buffer-geometry fields of `VulkanDevice` (common.h:92-95), with the
in-class initializer values as defaults. -/
structure VulkanDeviceBuffers where
  numBufferEntries : Nat := 256
  bufferSize : Nat := 4 * numBufferEntries
  memorySize : Nat := 2 * bufferSize
deriving DecidableEq

/-- Observable result of `AllocateInputOutputBuffers`: the byte offsets the
two buffers were bound at within the single `bufferMemory` allocation
(common.cc:497-500), and the allocation's contents after the optional
initialization (common.cc:502-533). -/
structure AllocResult where
  inBindOffset : Nat
  outBindOffset : Nat
  memory : List Cell
deriving DecidableEq

/-- `AllocateInputOutputBuffers` (common.cc:450-534).  `mem0` is the
(indeterminate) initial contents of the fresh `vkAllocateMemory` allocation,
one `Cell` per 32-bit word.  The "in" buffer is bound at byte offset 0 and
the "out" buffer at byte offset `bufferSize`; when `initialization` is not
`None` the mapped allocation is written: the first `numBufferEntries` words
according to the mode, then the next `numBufferEntries` words zeroed. -/
def AllocateInputOutputBuffers (device : VulkanDeviceBuffers)
    (initialization : BufferInitialization) (mem0 : List Cell) : AllocResult :=
  let n := device.numBufferEntries
  let memory :=
    if initialization = BufferInitialization.None then mem0
    else
      let afterIn :=
        if initialization = BufferInitialization.Default then
          writeSeq mem0 0 ((List.range n).map fun i => Cell.f32 (2 + 2 * Int.ofNat i))
        else if initialization = BufferInitialization.MinusOne then
          writeSeq mem0 0 (List.replicate n (Cell.f32 (-1)))
        else if initialization = BufferInitialization._64K then
          writeSeq mem0 0 (List.replicate n (Cell.u32 65535))
        else mem0
      writeSeq afterIn n (List.replicate n (Cell.f32 0))
  { inBindOffset := 0, outBindOffset := device.bufferSize, memory := memory }

/-! ## InitVulkanDevice (common.cc:200-423) -/

/-- One binding of the descriptor set layout built at common.cc:358-371. -/
structure DescriptorSetLayoutBinding where
  binding : Nat
  descriptorType : Nat
  descriptorCount : Nat
  stageFlags : Nat
deriving DecidableEq

/-- The shader/descriptor/pipeline state built at common.cc:339-418 when a
shader module path was supplied (and the early-return at common.cc:309-313
was not taken). -/
structure PipelineState where
  shaderModulePath : String
  descriptorSetLayoutBindings : List DescriptorSetLayoutBinding
  pipelineLayoutSetLayoutCount : Nat
  pipelineStage : Nat
  pipelineEntryPoint : String
deriving DecidableEq

/-- The descriptor set layout binding template of common.cc:360-365:
storage buffer, one descriptor, visible to all stages. -/
def storageBufferBinding (b : Nat) : DescriptorSetLayoutBinding :=
  { binding := b
    descriptorType := VK_DESCRIPTOR_TYPE_STORAGE_BUFFER
    descriptorCount := 1
    stageFlags := VK_SHADER_STAGE_ALL }

/-- The `VulkanDevice` record as registered in `context->devices` by
`InitVulkanDevice`: the `(family, index-within-family)` pair of each
requested queue, the queue family of each created command pool (one pool per
queue, common.cc:315-328), and the pipeline state when it was built. -/
structure DeviceRecord where
  queues : List (Nat × Nat)
  commandPools : List Nat
  pipelineState : Option PipelineState
deriving DecidableEq

/-- The `create_info_indices` / `queue_create_infos` bookkeeping of
common.cc:237-252 for one queue: given the accumulated
`(queueFamilyIndex, queueCount)` descriptors, bump the descriptor of `fam`
(appending a fresh one if absent) and return the within-family queue index
assigned to this queue (the descriptor's count before the bump). -/
def bumpFamily : List (Nat × Nat) → Nat → List (Nat × Nat) × Nat
  | [], fam => ([(fam, 1)], 0)
  | (f, c) :: rest, fam =>
      if f = fam then ((f, c + 1) :: rest, c)
      else
        let r := bumpFamily rest fam
        ((f, c) :: r.1, r.2)

/-- The queue-resolution loop of common.cc:237-252: for each requested queue
class, resolve its family via `SelectQueue` and record the
`(family, within-family index)` pair, accumulating colliding classes into the
same family's creation descriptor. -/
def buildQueueIndices (queue_families : List VkQueueFamilyProperties) :
    List QueueType → List (Nat × Nat) → List (Nat × Nat)
  | [], _ => []
  | t :: ts, infos =>
      let fam := SelectQueue queue_families t
      let r := bumpFamily infos fam
      (fam, r.2) :: buildQueueIndices queue_families ts r.1

/-- `InitVulkanDevice` (common.cc:200-423), reduced to the construction of the
registered `DeviceRecord`.  `queue_families` describes the selected (first)
physical device, `shader_module_path` is the optional kernel path, and
`queues` is the requested queue-class list (after the `nullptr` default of
common.cc:204-208 has been resolved by the caller).  When the resolved queue
index list is empty the function returns early at common.cc:309-313,
registering the device before any queue, command pool, shader, descriptor or
pipeline setup. -/
def InitVulkanDevice (queue_families : List VkQueueFamilyProperties)
    (shader_module_path : Option String) (queues : List QueueType) :
    DeviceRecord :=
  let queue_indices := buildQueueIndices queue_families queues []
  if queue_indices.isEmpty then
    { queues := [], commandPools := [], pipelineState := none }
  else
    { queues := queue_indices
      commandPools := queue_indices.map Prod.fst
      pipelineState :=
        shader_module_path.map fun path =>
          { shaderModulePath := path
            descriptorSetLayoutBindings :=
              [storageBufferBinding 0, storageBufferBinding 1]
            pipelineLayoutSetLayoutCount := 1
            pipelineStage := VK_SHADER_STAGE_COMPUTE_BIT
            pipelineEntryPoint := "main" } }

/-! ## RunWithCrashCheck (common.cc:881-937) -/

/-- `kFenceTimeout.count()`: 30 seconds expressed in nanoseconds
(common.cc:927-928). -/
def kFenceTimeoutNs : Nat := 30000000000

/-- The results the underlying Vulkan calls of `RunWithCrashCheck` would
return, in program order.  The driver is the nondeterministic environment;
each field is the `VkResult` of the corresponding call site. -/
structure VkCalls where
  allocateCommandBuffers : Int
  beginCommandBuffer : Int
  endCommandBuffer : Int
  createFence : Int
  queueWaitIdleFirst : Int
  queueSubmit : Int
  waitForFences : Int
  queueWaitIdleFinal : Int
deriving DecidableEq

/-- The observable steps of one `RunWithCrashCheck` execution, in the order
they are performed. -/
inductive TraceEvent
  | allocSentinel
  | beginSentinel
  | endSentinel
  | createFence
  | payload
  | waitIdleFirst
  | submitSentinel
  | waitFence (timeoutNs : Nat)
  | waitIdleFinal
deriving DecidableEq

/-- `RunWithCrashCheck` (common.cc:881-937): allocates and records the empty
sentinel command buffer and creates the fence (each via `VK_RETURN_IF_FAIL`),
invokes the payload `f(ctx)`, issues the first idle-wait, submits the
sentinel with the fence, waits on the fence with the 30-second timeout, and
finally returns the result of a last idle-wait.  Any `VK_RETURN_IF_FAIL`ed
call returning non-`VK_SUCCESS` makes the function return that result at
once.  Returns the `VkResult` and the trace of steps performed. -/
def RunWithCrashCheck (c : VkCalls) : Int × List TraceEvent :=
  let t1 := [TraceEvent.allocSentinel]
  if c.allocateCommandBuffers ≠ 0 then (c.allocateCommandBuffers, t1) else
  let t2 := t1 ++ [TraceEvent.beginSentinel]
  if c.beginCommandBuffer ≠ 0 then (c.beginCommandBuffer, t2) else
  let t3 := t2 ++ [TraceEvent.endSentinel]
  if c.endCommandBuffer ≠ 0 then (c.endCommandBuffer, t3) else
  let t4 := t3 ++ [TraceEvent.createFence]
  if c.createFence ≠ 0 then (c.createFence, t4) else
  let t5 := t4 ++ [TraceEvent.payload, TraceEvent.waitIdleFirst]
  if c.queueWaitIdleFirst ≠ 0 then (c.queueWaitIdleFirst, t5) else
  let t6 := t5 ++ [TraceEvent.submitSentinel]
  if c.queueSubmit ≠ 0 then (c.queueSubmit, t6) else
  let t7 := t6 ++ [TraceEvent.waitFence kFenceTimeoutNs]
  if c.waitForFences ≠ 0 then (c.waitForFences, t7) else
  (c.queueWaitIdleFinal, t7 ++ [TraceEvent.waitIdleFinal])

/-! ## Helper lemmas -/

theorem findFirstIdx_le_length {α : Type _} (p : α → Bool) (l : List α) :
    findFirstIdx p l ≤ l.length := by
  induction l with
  | nil => simp [findFirstIdx]
  | cons a as ih =>
      by_cases h : p a <;> simp [findFirstIdx, h] <;> omega

theorem findFirstIdx_not_before {α : Type _} (p : α → Bool) (d : α) (l : List α) :
    ∀ j, j < findFirstIdx p l → p (l.getD j d) = false := by
  induction l with
  | nil => intro j hj; simp [findFirstIdx] at hj
  | cons a as ih =>
      intro j hj
      by_cases h : p a
      · simp [findFirstIdx, h] at hj
      · cases j with
        | zero => simpa using h
        | succ k =>
            simp only [findFirstIdx, h, Bool.false_eq_true, if_false] at hj
            rw [List.getD_cons_succ]
            exact ih k (by omega)

theorem findFirstIdx_found {α : Type _} (p : α → Bool) (d : α) (l : List α) :
    findFirstIdx p l < l.length → p (l.getD (findFirstIdx p l) d) = true := by
  induction l with
  | nil => intro h; simp [findFirstIdx] at h
  | cons a as ih =>
      intro hlt
      by_cases h : p a
      · simpa [findFirstIdx, h] using h
      · simp only [findFirstIdx, h, Bool.false_eq_true, if_false,
          List.length_cons] at hlt ⊢
        rw [List.getD_cons_succ]
        exact ih (by omega)

theorem findFirstIdx_eq_length {α : Type _} (p : α → Bool) (l : List α) :
    (∀ x ∈ l, p x = false) → findFirstIdx p l = l.length := by
  induction l with
  | nil => intro _; rfl
  | cons a as ih =>
      intro hall
      have ha : p a = false := hall a (List.mem_cons_self a as)
      simp [findFirstIdx, ha, ih fun x hx => hall x (List.mem_cons_of_mem a hx)]

theorem selectQueuePred_iff (t : QueueType) (q : VkQueueFamilyProperties) :
    selectQueuePred t q = true ↔ specQueueRule t q.queueFlags := by
  have hg : q.queueFlags &&& VK_QUEUE_GRAPHICS_BIT ≤ VK_QUEUE_GRAPHICS_BIT :=
    Nat.and_le_right
  cases t with
  | Undefined =>
      simp only [selectQueuePred, specQueueRule, decide_eq_true_eq]
      unfold VK_QUEUE_GRAPHICS_BIT at hg ⊢
      omega
  | Graphics =>
      simp only [selectQueuePred, specQueueRule, decide_eq_true_eq]
      unfold VK_QUEUE_GRAPHICS_BIT at hg ⊢
      omega
  | Compute =>
      simp [selectQueuePred, specQueueRule]
  | Transfer =>
      simp [selectQueuePred, specQueueRule, and_assoc]

/-! ## Claim theorems -/

/-- C2: for every queue-family descriptor list and requested class,
`SelectQueue` returns the index of the first family satisfying the class's
rule (Compute: compute but not graphics; Transfer: transfer but neither
graphics nor compute; Graphics/default: graphics), and when no family matches
it returns an out-of-range index equal to the family count. -/
theorem selectQueue_first_match (fams : List VkQueueFamilyProperties)
    (t : QueueType) :
    SelectQueue fams t ≤ fams.length
    ∧ (∀ j d, j < SelectQueue fams t →
        ¬ specQueueRule t ((fams.getD j d).queueFlags))
    ∧ (∀ d, SelectQueue fams t < fams.length →
        specQueueRule t ((fams.getD (SelectQueue fams t) d).queueFlags))
    ∧ ((∀ q ∈ fams, ¬ specQueueRule t q.queueFlags) →
        SelectQueue fams t = fams.length) := by
  refine ⟨findFirstIdx_le_length _ _, ?_, ?_, ?_⟩
  · intro j d hj hrule
    have hfalse := findFirstIdx_not_before (selectQueuePred t) d fams j hj
    rw [← selectQueuePred_iff] at hrule
    rw [hfalse] at hrule
    exact Bool.false_ne_true hrule
  · intro d hlt
    exact (selectQueuePred_iff t _).mp
      (findFirstIdx_found (selectQueuePred t) d fams hlt)
  · intro hall
    refine findFirstIdx_eq_length _ _ fun x hx => ?_
    have hx2 := hall x hx
    rw [← selectQueuePred_iff] at hx2
    simpa using hx2

/-- Witness for C2 at a concrete input: with families `[graphics+compute,
compute-only]`, a Compute request selects index 1, which satisfies the
Compute rule. -/
theorem selectQueue_first_match_witness :
    specQueueRule QueueType.Compute
      ((([⟨3⟩, ⟨2⟩] : List VkQueueFamilyProperties).getD
        (SelectQueue [⟨3⟩, ⟨2⟩] QueueType.Compute) ⟨0⟩).queueFlags) :=
  (selectQueue_first_match [⟨3⟩, ⟨2⟩] QueueType.Compute).2.2.1 ⟨0⟩ (by decide)

theorem findMemoryTypeLoop_cases (bits props : Nat) (d : VkMemoryType)
    (l : List VkMemoryType) :
    ∀ i0 : Nat,
      findMemoryTypeLoop bits props i0 l = kMemoryTypeNotFound
      ∨ ∃ k, k < l.length ∧ findMemoryTypeLoop bits props i0 l = i0 + k ∧
          bits.testBit (i0 + k) ∧ (l.getD k d).propertyFlags &&& props = props := by
  induction l with
  | nil => intro i0; exact Or.inl rfl
  | cons m rest ih =>
      intro i0
      by_cases h : bits.testBit i0 ∧ m.propertyFlags &&& props = props
      · right
        refine ⟨0, by simp, by simp [findMemoryTypeLoop, h], ?_, ?_⟩
        · simpa using h.1
        · simpa using h.2
      · have hstep : findMemoryTypeLoop bits props i0 (m :: rest) =
            findMemoryTypeLoop bits props (i0 + 1) rest := by
          simp [findMemoryTypeLoop, h]
        rcases ih (i0 + 1) with hnone | ⟨k, hk, heq, hb, hp⟩
        · exact Or.inl (hstep.trans hnone)
        · right
          refine ⟨k + 1, by simpa using Nat.succ_lt_succ hk, ?_, ?_, ?_⟩
          · rw [hstep, heq]; omega
          · have hidx : i0 + (k + 1) = i0 + 1 + k := by omega
            rw [hidx]; exact hb
          · simpa using hp

theorem findMemoryTypeLoop_not_before (bits props : Nat) (d : VkMemoryType)
    (l : List VkMemoryType) :
    ∀ i0 j : Nat, i0 ≤ j →
      j < findMemoryTypeLoop bits props i0 l → j < i0 + l.length →
      ¬ (bits.testBit j ∧ (l.getD (j - i0) d).propertyFlags &&& props = props) := by
  induction l with
  | nil => intro i0 j h1 h2 h3; simp at h3; omega
  | cons m rest ih =>
      intro i0 j hij hlt hrange
      by_cases h : bits.testBit i0 ∧ m.propertyFlags &&& props = props
      · have : findMemoryTypeLoop bits props i0 (m :: rest) = i0 := by
          simp [findMemoryTypeLoop, h]
        rw [this] at hlt; omega
      · have hstep : findMemoryTypeLoop bits props i0 (m :: rest) =
            findMemoryTypeLoop bits props (i0 + 1) rest := by
          simp [findMemoryTypeLoop, h]
        rw [hstep] at hlt
        by_cases hj : j = i0
        · subst hj
          simpa [Nat.sub_self] using h
        · have hrec := ih (i0 + 1) j (by omega) hlt
            (by simp only [List.length_cons] at hrange; omega)
          have hsub : j - i0 = (j - (i0 + 1)) + 1 := by omega
          rw [hsub, List.getD_cons_succ]
          exact hrec

/-- C5: for every memory-type list, bitmask and required-property mask,
`FindMemoryType` returns the lowest index whose bit is set in the bitmask and
whose property flags are a superset of the required flags, and returns the
out-of-range sentinel `uint32_t(-1)` when no index satisfies both.  The
length bound is `VK_MAX_MEMORY_TYPES = 32`, the size of the `memoryTypes`
array the scan runs over. -/
theorem findMemoryType_lowest (types : List VkMemoryType) (bits props : Nat)
    (hlen : types.length ≤ 32) :
    (∀ j d, j < FindMemoryType types bits props → j < types.length →
        ¬ (bits.testBit j ∧ (types.getD j d).propertyFlags &&& props = props))
    ∧ (∀ d, FindMemoryType types bits props < types.length →
        bits.testBit (FindMemoryType types bits props) ∧
        (types.getD (FindMemoryType types bits props) d).propertyFlags &&& props
          = props)
    ∧ ((∀ j d, j < types.length →
          ¬ (bits.testBit j ∧ (types.getD j d).propertyFlags &&& props = props)) →
        FindMemoryType types bits props = kMemoryTypeNotFound) := by
  refine ⟨?_, ?_, ?_⟩
  · intro j d hj hjl
    have := findMemoryTypeLoop_not_before bits props d types 0 j
      (Nat.zero_le j) hj (by omega)
    simpa using this
  · intro d hlt
    rcases findMemoryTypeLoop_cases bits props d types 0 with hnone | ⟨k, hk, heq, hb, hp⟩
    · unfold FindMemoryType at hlt
      rw [hnone] at hlt
      unfold kMemoryTypeNotFound at hlt
      omega
    · have hres : FindMemoryType types bits props = k := by
        unfold FindMemoryType; omega
      rw [hres]
      exact ⟨by simpa using hb, hp⟩
  · intro hall
    rcases findMemoryTypeLoop_cases bits props ⟨0⟩ types 0 with hnone | ⟨k, hk, heq, hb, hp⟩
    · exact hnone
    · exact absurd ⟨by simpa using hb, hp⟩ (hall k ⟨0⟩ hk)

/-- Witness for C5 at a concrete input: with memory types `[flags 0, flags 6]`,
bitmask 3 and required flags 6, the returned index has its bit set in the
bitmask and its flags a superset of the requirement. -/
theorem findMemoryType_lowest_witness :
    (3 : Nat).testBit (FindMemoryType [⟨0⟩, ⟨6⟩] 3 6) ∧
    (([⟨0⟩, ⟨6⟩] : List VkMemoryType).getD (FindMemoryType [⟨0⟩, ⟨6⟩] 3 6)
      ⟨0⟩).propertyFlags &&& 6 = 6 :=
  (findMemoryType_lowest [⟨0⟩, ⟨6⟩] 3 6 (by decide)).2.1 ⟨0⟩ (by decide)

/-- C6: the watchdog state machine is one-directional: a running watchdog
thread reaches exactly one of the two outcomes — timed-out (the process-wide
`test_timedout` flag is set and the process is forcibly terminated with exit
status 0) or notified-finished (the wait returns before the deadline and the
thread leaves without setting the flag or exiting) — never both. -/
theorem watchdogTimer_one_directional (status : CvStatus) :
    Xor'
      (WatchdogTimer false status =
        { test_timedout := true, exitCalled := some 0 })
      (WatchdogTimer false status =
        { test_timedout := false, exitCalled := none }) := by
  cases status with
  | timedout => exact Or.inl ⟨rfl, by simp [WatchdogTimer]⟩
  | noTimeout => exact Or.inr ⟨rfl, by simp [WatchdogTimer]⟩

/-- Witness for C6 at the concrete timed-out outcome. -/
theorem watchdogTimer_one_directional_witness :
    Xor'
      (WatchdogTimer false CvStatus.timedout =
        { test_timedout := true, exitCalled := some 0 })
      (WatchdogTimer false CvStatus.timedout =
        { test_timedout := false, exitCalled := none }) :=
  watchdogTimer_one_directional CvStatus.timedout

/-- C7: calling `SetupWatchdogTimer` twice on the same context starts exactly
one watchdog thread: the second call changes nothing, spawns no second
thread, and registers the exit handler only once. -/
theorem setupWatchdogTimer_idempotent (context : VulkanContext) :
    SetupWatchdogTimer context (SetupWatchdogTimer context initialWatchdogGlobals)
      = SetupWatchdogTimer context initialWatchdogGlobals
    ∧ (SetupWatchdogTimer context
        (SetupWatchdogTimer context initialWatchdogGlobals)).threadsSpawned = 1
    ∧ (SetupWatchdogTimer context
        (SetupWatchdogTimer context initialWatchdogGlobals)).atexitRegistrations
      = 1 := by
  simp [SetupWatchdogTimer, initialWatchdogGlobals]

/-- C10: the watchdog guard is process-global, not per-context: once the
watchdog thread exists, `SetupWatchdogTimer` on any context (the same or a
different one) is a no-op, so at most one thread ever exists and the deadline
in effect is the first calling context's `test_termination_timer_ms`. -/
theorem setupWatchdogTimer_process_global (ctx1 ctx2 : VulkanContext)
    (g : WatchdogGlobals) :
    (g.watchdog_thread ≠ none → SetupWatchdogTimer ctx2 g = g)
    ∧ (SetupWatchdogTimer ctx2
        (SetupWatchdogTimer ctx1 initialWatchdogGlobals)).watchdog_thread
      = some ctx1.test_termination_timer_ms
    ∧ (SetupWatchdogTimer ctx2
        (SetupWatchdogTimer ctx1 initialWatchdogGlobals)).threadsSpawned = 1 := by
  refine ⟨?_, ?_, ?_⟩
  · intro hsome
    match hthread : g.watchdog_thread with
    | none => exact absurd hthread hsome
    | some deadline => simp [SetupWatchdogTimer, hthread]
  · simp [SetupWatchdogTimer, initialWatchdogGlobals]
  · simp [SetupWatchdogTimer, initialWatchdogGlobals]

/-- Witness for C10 at a concrete input: with the thread already started, a
further call on a different context leaves the globals untouched. -/
theorem setupWatchdogTimer_process_global_witness :
    SetupWatchdogTimer ⟨99⟩
      { watchdog_thread := some 5, atexitRegistrations := 1, threadsSpawned := 1 }
      = { watchdog_thread := some 5, atexitRegistrations := 1,
          threadsSpawned := 1 } :=
  (setupWatchdogTimer_process_global ⟨42⟩ ⟨99⟩
    { watchdog_thread := some 5, atexitRegistrations := 1,
      threadsSpawned := 1 }).1 (by decide)

theorem writeSeq_length (vals : List Cell) :
    ∀ (mem : List Cell) (start : Nat),
      (writeSeq mem start vals).length = mem.length := by
  induction vals with
  | nil => intro mem start; rfl
  | cons v vs ih =>
      intro mem start
      rw [writeSeq, ih, List.length_set]

theorem writeSeq_getD (vals : List Cell) :
    ∀ (mem : List Cell) (start i : Nat) (u : Cell),
      start + vals.length ≤ mem.length →
      (writeSeq mem start vals).getD i u =
        if start ≤ i ∧ i < start + vals.length then vals.getD (i - start) u
        else mem.getD i u := by
  induction vals with
  | nil =>
      intro mem start i u h
      rw [writeSeq, if_neg (by simp only [List.length_nil]; omega)]
  | cons v vs ih =>
      intro mem start i u h
      have hlen : start < mem.length := by
        simp only [List.length_cons] at h; omega
      rw [writeSeq, ih (mem.set start v) (start + 1) i u
        (by rw [List.length_set]; simp only [List.length_cons] at h; omega)]
      by_cases h0 : i = start
      · subst h0
        rw [if_neg (by omega), if_pos (by simp only [List.length_cons]; omega)]
        rw [Nat.sub_self, List.getD_cons_zero,
          List.getD_eq_getElem _ _ (by rw [List.length_set]; exact hlen)]
        simp
      · by_cases h1 : start + 1 ≤ i ∧ i < start + 1 + vs.length
        · rw [if_pos h1, if_pos (by simp only [List.length_cons]; omega)]
          have hsub : i - start = (i - (start + 1)) + 1 := by omega
          rw [hsub, List.getD_cons_succ]
        · rw [if_neg h1, if_neg (by simp only [List.length_cons]; omega)]
          by_cases h2 : i < mem.length
          · have hne : start ≠ i := fun hs => h0 hs.symm
            rw [List.getD_eq_getElem _ _ (by rw [List.length_set]; exact h2),
              List.getD_eq_getElem _ _ h2]
            exact List.getElem_set_ne hne _
          · rw [List.getD_eq_default _ _ (by rw [List.length_set]; omega),
              List.getD_eq_default _ _ (by omega)]

/-- C3 (amended): for every successful `AllocateInputOutputBuffers` call the
"out" buffer is bound at byte offset exactly `bufferSize` within the single
shared allocation, and for every initialization mode other than `None`,
reading `numBufferEntries` 32-bit words starting at that offset immediately
after initialization yields all-zero values.  (`bufferSize` and the
allocation size are as set by the in-class initializers of common.h:92-95.) -/
theorem allocateBuffers_out_offset_and_zero (device : VulkanDeviceBuffers)
    (mode : BufferInitialization) (mem0 : List Cell)
    (hbs : device.bufferSize = 4 * device.numBufferEntries)
    (hmem : mem0.length = 2 * device.numBufferEntries) :
    (AllocateInputOutputBuffers device mode mem0).outBindOffset
      = device.bufferSize
    ∧ (mode ≠ BufferInitialization.None →
        ∀ i, i < device.numBufferEntries →
          (AllocateInputOutputBuffers device mode mem0).memory.getD
            (device.bufferSize / 4 + i) Cell.undef = Cell.f32 0) := by
  constructor
  · rfl
  · intro hmode i hi
    have hq : device.bufferSize / 4 = device.numBufferEntries := by
      rw [hbs]; omega
    rw [hq]
    set n := device.numBufferEntries with hn
    have hafter : ∀ afterIn : List Cell, afterIn.length = 2 * n →
        (writeSeq afterIn n (List.replicate n (Cell.f32 0))).getD (n + i)
          Cell.undef = Cell.f32 0 := by
      intro afterIn hlen
      rw [writeSeq_getD _ _ _ _ _ (by rw [hlen, List.length_replicate]; omega)]
      rw [if_pos (by rw [List.length_replicate]; omega)]
      rw [List.getD_eq_getElem _ _
        (by rw [List.length_replicate]; omega)]
      simp
    cases mode with
    | None => exact absurd rfl hmode
    | Default =>
        show (writeSeq (writeSeq mem0 0 _) n _).getD (n + i) Cell.undef = _
        exact hafter _ (by rw [writeSeq_length]; exact hmem)
    | MinusOne =>
        show (writeSeq (writeSeq mem0 0 _) n _).getD (n + i) Cell.undef = _
        exact hafter _ (by rw [writeSeq_length]; exact hmem)
    | _64K =>
        show (writeSeq (writeSeq mem0 0 _) n _).getD (n + i) Cell.undef = _
        exact hafter _ (by rw [writeSeq_length]; exact hmem)
    | Transfer =>
        show (writeSeq mem0 n _).getD (n + i) Cell.undef = _
        exact hafter _ hmem

/-- Counterexample to C3 as stated: for the `None` initialization mode the
allocation is never mapped or written, so the out region keeps the
indeterminate contents of the fresh allocation — here a device with one
buffer entry and a fresh allocation holding nonzero words, where the word at
the out offset reads back nonzero. -/
theorem allocateBuffers_none_mode_counterexample :
    (AllocateInputOutputBuffers ⟨1, 4, 8⟩ BufferInitialization.None
      [Cell.u32 7, Cell.u32 7]).outBindOffset = 4
    ∧ (AllocateInputOutputBuffers ⟨1, 4, 8⟩ BufferInitialization.None
        [Cell.u32 7, Cell.u32 7]).memory.getD (4 / 4 + 0) Cell.undef
      ≠ Cell.f32 0 := by
  exact ⟨rfl, by decide⟩

/-- Witness for C3's amended theorem at a concrete input: a 2-entry device,
`Default` mode, fresh allocation of 4 nonzero words; the second out-region
word reads back zero. -/
theorem allocateBuffers_out_offset_and_zero_witness :
    (AllocateInputOutputBuffers ⟨2, 8, 16⟩ BufferInitialization.Default
      (List.replicate 4 (Cell.u32 9))).memory.getD (8 / 4 + 1) Cell.undef
      = Cell.f32 0 :=
  (allocateBuffers_out_offset_and_zero ⟨2, 8, 16⟩ BufferInitialization.Default
    (List.replicate 4 (Cell.u32 9)) rfl rfl).2 (by decide) 1 (by decide)

/-- C9: for every successful `AllocateInputOutputBuffers` call with mode
other than `None`, the input half of the mapped allocation is written
according to the mode: `Default` writes the ascending float sequence
`2 + 2*i` at each index `i` below `numBufferEntries`, `MinusOne` writes the
constant float `-1.0` at every index, and `_64K` writes the constant 32-bit
unsigned value `65535` at every index. -/
theorem allocateBuffers_input_init (device : VulkanDeviceBuffers)
    (mem0 : List Cell)
    (hmem : mem0.length = 2 * device.numBufferEntries) :
    (∀ i, i < device.numBufferEntries →
        (AllocateInputOutputBuffers device BufferInitialization.Default
          mem0).memory.getD i Cell.undef = Cell.f32 (2 + 2 * Int.ofNat i))
    ∧ (∀ i, i < device.numBufferEntries →
        (AllocateInputOutputBuffers device BufferInitialization.MinusOne
          mem0).memory.getD i Cell.undef = Cell.f32 (-1))
    ∧ (∀ i, i < device.numBufferEntries →
        (AllocateInputOutputBuffers device BufferInitialization._64K
          mem0).memory.getD i Cell.undef = Cell.u32 65535) := by
  set n := device.numBufferEntries with hn
  have houter : ∀ (inner : List Cell) (i : Nat), inner.length = 2 * n → i < n →
      (writeSeq inner n (List.replicate n (Cell.f32 0))).getD i Cell.undef =
        inner.getD i Cell.undef := by
    intro inner i hlen hi
    rw [writeSeq_getD _ _ _ _ _ (by rw [hlen, List.length_replicate]; omega)]
    rw [if_neg (by omega)]
  refine ⟨?_, ?_, ?_⟩
  · intro i hi
    show (writeSeq (writeSeq mem0 0
        ((List.range n).map fun k => Cell.f32 (2 + 2 * Int.ofNat k))) n
        (List.replicate n (Cell.f32 0))).getD i Cell.undef = _
    rw [houter _ i (by rw [writeSeq_length]; exact hmem) hi]
    rw [writeSeq_getD _ _ _ _ _
      (by rw [hmem]; simp only [List.length_map, List.length_range]; omega)]
    rw [if_pos (by simp only [List.length_map, List.length_range]; omega)]
    rw [Nat.sub_zero, List.getD_eq_getElem _ _
      (by simp only [List.length_map, List.length_range]; exact hi)]
    simp
  · intro i hi
    show (writeSeq (writeSeq mem0 0 (List.replicate n (Cell.f32 (-1)))) n
        (List.replicate n (Cell.f32 0))).getD i Cell.undef = _
    rw [houter _ i (by rw [writeSeq_length]; exact hmem) hi]
    rw [writeSeq_getD _ _ _ _ _
      (by rw [hmem, List.length_replicate]; omega)]
    rw [if_pos (by rw [List.length_replicate]; omega)]
    rw [Nat.sub_zero, List.getD_eq_getElem _ _
      (by rw [List.length_replicate]; exact hi)]
    simp
  · intro i hi
    show (writeSeq (writeSeq mem0 0 (List.replicate n (Cell.u32 65535))) n
        (List.replicate n (Cell.f32 0))).getD i Cell.undef = _
    rw [houter _ i (by rw [writeSeq_length]; exact hmem) hi]
    rw [writeSeq_getD _ _ _ _ _
      (by rw [hmem, List.length_replicate]; omega)]
    rw [if_pos (by rw [List.length_replicate]; omega)]
    rw [Nat.sub_zero, List.getD_eq_getElem _ _
      (by rw [List.length_replicate]; exact hi)]
    simp

/-- Witness for C9 at a concrete input: a 2-entry device initialized in
`Default` mode reads back `2 + 2*1 = 4.0f` at input index 1. -/
theorem allocateBuffers_input_init_witness :
    (AllocateInputOutputBuffers ⟨2, 8, 16⟩ BufferInitialization.Default
      (List.replicate 4 (Cell.u32 9))).memory.getD 1 Cell.undef
      = Cell.f32 4 := by
  simpa using (allocateBuffers_input_init ⟨2, 8, 16⟩
    (List.replicate 4 (Cell.u32 9)) rfl).1 1 (by decide)

theorem buildQueueIndices_length (fams : List VkQueueFamilyProperties)
    (qs : List QueueType) :
    ∀ infos, (buildQueueIndices fams qs infos).length = qs.length := by
  induction qs with
  | nil => intro infos; rfl
  | cons t ts ih =>
      intro infos
      rw [buildQueueIndices, List.length_cons, ih]
      rfl

/-- C4 (amended): for every `InitVulkanDevice` call with a kernel path and a
nonempty requested queue list, the registered device record ends up with the
shader module loaded, the 2-slot storage-buffer descriptor set layout
(bindings 0 and 1), a pipeline layout, and a compute pipeline built from the
module's "main" entry point, with one queue and one command pool per request;
when the requested queue list is empty, the device is still registered, but
it has no queues, no command pools, and none of the shader/pipeline state is
built (the function returns early, before the shader-loading block). -/
theorem initVulkanDevice_kernel_pipeline
    (fams : List VkQueueFamilyProperties) (path : String)
    (qs : List QueueType) :
    (qs = [] →
        InitVulkanDevice fams (some path) qs =
          { queues := [], commandPools := [], pipelineState := none })
    ∧ (qs ≠ [] →
        (InitVulkanDevice fams (some path) qs).pipelineState =
          some { shaderModulePath := path
                 descriptorSetLayoutBindings :=
                   [storageBufferBinding 0, storageBufferBinding 1]
                 pipelineLayoutSetLayoutCount := 1
                 pipelineStage := VK_SHADER_STAGE_COMPUTE_BIT
                 pipelineEntryPoint := "main" }
        ∧ (InitVulkanDevice fams (some path) qs).queues.length = qs.length
        ∧ (InitVulkanDevice fams (some path) qs).commandPools.length
            = qs.length) := by
  have hlen := buildQueueIndices_length fams qs []
  constructor
  · intro hqs
    subst hqs
    rfl
  · intro hqs
    have hne : (buildQueueIndices fams qs []).isEmpty = false := by
      rw [List.isEmpty_eq_false]
      intro hnil
      apply hqs
      have := hlen
      rw [hnil] at this
      exact List.length_eq_zero.mp this.symm
    simp only [InitVulkanDevice, hne, Bool.false_eq_true, if_false,
      Option.map_some', List.length_map]
    exact ⟨trivial, hlen, hlen⟩

/-- Counterexample to C4 as stated: with a kernel path supplied but an empty
requested queue list, `InitVulkanDevice` returns early (common.cc:309-313)
and the registered device has no shader module, descriptor layout, pipeline
layout or pipeline at all. -/
theorem initVulkanDevice_empty_queue_counterexample :
    (InitVulkanDevice [⟨1⟩] (some "kernel.spv") []).pipelineState = none :=
  rfl

/-- Witness for C4's amended theorem at a concrete input: one graphics-capable
family, a kernel path, one Graphics queue request. -/
theorem initVulkanDevice_kernel_pipeline_witness :
    (InitVulkanDevice [⟨1⟩] (some "kernel.spv")
      [QueueType.Graphics]).pipelineState =
      some { shaderModulePath := "kernel.spv"
             descriptorSetLayoutBindings :=
               [storageBufferBinding 0, storageBufferBinding 1]
             pipelineLayoutSetLayoutCount := 1
             pipelineStage := VK_SHADER_STAGE_COMPUTE_BIT
             pipelineEntryPoint := "main" } :=
  ((initVulkanDevice_kernel_pipeline [⟨1⟩] "kernel.spv"
    [QueueType.Graphics]).2 (by simp)).1

/-- C8 (amended): for every command-buffer pointer and every pair of
equal-length sequences of `N` wait semaphores and `N` wait-stage masks (plus
optional signal semaphores and extension chain), the descriptor returned by
`CreateSubmitInfo` has command-buffer count 1 pointing at the given command
buffer, wait count `N` with the wait-semaphore and wait-stage-mask pointers
referring to the given sequences' storage, and the signal count/pointer
likewise preserved; the equality of the two wait counts is a caller contract
that IS checked by a runtime assertion (common.cc:622) — a mismatch aborts
instead of returning a descriptor. -/
theorem createSubmitInfo_round_trip (cb : Nat) (ws masks : HostVector Nat)
    (ss : Option (HostVector Nat)) (pnext : Option Nat)
    (h : ws.elems.length = masks.elems.length) :
    CreateSubmitInfo cb (some ws) (some masks) ss pnext =
      some { commandBufferCount := 1
             pCommandBuffers := some cb
             waitSemaphoreCount := ws.elems.length
             pWaitSemaphores := some ws.addr
             pWaitDstStageMask := some masks.addr
             signalSemaphoreCount := ((ss.map fun s => s.elems.length).getD 0)
             pSignalSemaphores := ss.map HostVector.addr
             pNext := pnext } := by
  cases ss with
  | none => simp [CreateSubmitInfo, h]
  | some s => simp [CreateSubmitInfo, h]

/-- Counterexample to C8's "not validated at runtime" clause: a call with one
wait semaphore but zero wait-stage masks fails the assertion at common.cc:622
and aborts instead of returning a descriptor. -/
theorem createSubmitInfo_mismatch_counterexample :
    CreateSubmitInfo 1 (some ⟨2, [10]⟩) (some ⟨3, []⟩) none none = none :=
  rfl

/-- Witness for C8's amended theorem at a concrete input. -/
theorem createSubmitInfo_round_trip_witness :
    CreateSubmitInfo 1 (some ⟨2, [10]⟩) (some ⟨3, [20]⟩) (some ⟨4, [30, 31]⟩)
      (some 9) =
      some { commandBufferCount := 1
             pCommandBuffers := some 1
             waitSemaphoreCount := 1
             pWaitSemaphores := some 2
             pWaitDstStageMask := some 3
             signalSemaphoreCount := 2
             pSignalSemaphores := some 4
             pNext := some 9 } :=
  createSubmitInfo_round_trip 1 ⟨2, [10]⟩ ⟨3, [20]⟩ (some ⟨4, [30, 31]⟩)
    (some 9) rfl

/-- C1: `RunWithCrashCheck` first allocates and records the empty sentinel
command buffer and creates the fence, then invokes the payload; any
underlying Vulkan call failing before the sentinel submission makes it
return that failure code immediately; after submitting the sentinel with the
fence it waits on the fence with a 30-second timeout, and only if that fence
wait succeeds does it issue a final queue idle-wait and return that
idle-wait's result. -/
theorem runWithCrashCheck_protocol (c : VkCalls) :
    (c.allocateCommandBuffers = 0 → c.beginCommandBuffer = 0 →
      c.endCommandBuffer = 0 → c.createFence = 0 →
      (RunWithCrashCheck c).2.take 5 =
        [TraceEvent.allocSentinel, TraceEvent.beginSentinel,
         TraceEvent.endSentinel, TraceEvent.createFence, TraceEvent.payload])
    ∧ (c.allocateCommandBuffers ≠ 0 →
        (RunWithCrashCheck c).1 = c.allocateCommandBuffers)
    ∧ (c.allocateCommandBuffers = 0 → c.beginCommandBuffer ≠ 0 →
        (RunWithCrashCheck c).1 = c.beginCommandBuffer)
    ∧ (c.allocateCommandBuffers = 0 → c.beginCommandBuffer = 0 →
        c.endCommandBuffer ≠ 0 → (RunWithCrashCheck c).1 = c.endCommandBuffer)
    ∧ (c.allocateCommandBuffers = 0 → c.beginCommandBuffer = 0 →
        c.endCommandBuffer = 0 → c.createFence = 0 → c.queueWaitIdleFirst ≠ 0 →
        (RunWithCrashCheck c).1 = c.queueWaitIdleFirst)
    ∧ (c.allocateCommandBuffers = 0 → c.beginCommandBuffer = 0 →
        c.endCommandBuffer = 0 → c.createFence ≠ 0 →
        (RunWithCrashCheck c).1 = c.createFence)
    ∧ (c.allocateCommandBuffers = 0 → c.beginCommandBuffer = 0 →
        c.endCommandBuffer = 0 → c.createFence = 0 →
        c.queueWaitIdleFirst = 0 → c.queueSubmit = 0 →
        TraceEvent.waitFence kFenceTimeoutNs ∈ (RunWithCrashCheck c).2)
    ∧ (c.allocateCommandBuffers = 0 → c.beginCommandBuffer = 0 →
        c.endCommandBuffer = 0 → c.createFence = 0 →
        c.queueWaitIdleFirst = 0 → c.queueSubmit = 0 → c.waitForFences ≠ 0 →
        (RunWithCrashCheck c).1 = c.waitForFences ∧
        TraceEvent.waitIdleFinal ∉ (RunWithCrashCheck c).2)
    ∧ (c.allocateCommandBuffers = 0 → c.beginCommandBuffer = 0 →
        c.endCommandBuffer = 0 → c.createFence = 0 →
        c.queueWaitIdleFirst = 0 → c.queueSubmit = 0 → c.waitForFences = 0 →
        (RunWithCrashCheck c).1 = c.queueWaitIdleFinal ∧
        TraceEvent.waitIdleFinal ∈ (RunWithCrashCheck c).2) := by
  refine ⟨?_, ?_, ?_, ?_, ?_, ?_, ?_, ?_, ?_⟩
  · intro h1 h2 h3 h4
    simp only [RunWithCrashCheck, h1, h2, h3, h4, ne_eq, not_true_eq_false,
      if_false, if_neg, not_false_eq_true]
    by_cases h5 : c.queueWaitIdleFirst = 0 <;>
      by_cases h6 : c.queueSubmit = 0 <;>
      by_cases h7 : c.waitForFences = 0 <;>
      simp [h5, h6, h7]
  · intro h1
    simp [RunWithCrashCheck, h1]
  · intro h1 h2
    simp [RunWithCrashCheck, h1, h2]
  · intro h1 h2 h3
    simp [RunWithCrashCheck, h1, h2, h3]
  · intro h1 h2 h3 h4 h5
    simp [RunWithCrashCheck, h1, h2, h3, h4, h5]
  · intro h1 h2 h3 h4
    simp [RunWithCrashCheck, h1, h2, h3, h4]
  · intro h1 h2 h3 h4 h5 h6
    by_cases h7 : c.waitForFences = 0 <;>
      simp [RunWithCrashCheck, h1, h2, h3, h4, h5, h6, h7]
  · intro h1 h2 h3 h4 h5 h6 h7
    simp [RunWithCrashCheck, h1, h2, h3, h4, h5, h6, h7]
  · intro h1 h2 h3 h4 h5 h6 h7
    simp [RunWithCrashCheck, h1, h2, h3, h4, h5, h6, h7]

/-- Witness for C1 at a concrete input: when every underlying call succeeds,
the envelope performs the sentinel setup before the payload, and returns the
final idle-wait's result after the fence wait succeeded. -/
theorem runWithCrashCheck_protocol_witness :
    (RunWithCrashCheck ⟨0, 0, 0, 0, 0, 0, 0, 0⟩).1 = (0 : Int) ∧
    TraceEvent.waitIdleFinal ∈ (RunWithCrashCheck ⟨0, 0, 0, 0, 0, 0, 0, 0⟩).2 :=
  (runWithCrashCheck_protocol ⟨0, 0, 0, 0, 0, 0, 0, 0⟩).2.2.2.2.2.2.2.2
    rfl rfl rfl rfl rfl rfl rfl

end HCF
